import Mathlib

/-!
Shallow embedding of the `spacetraders_client` repository (Rust) in Lean 4.

Source files embedded:
  * `src/utils.rs` — config store (`ConfigData`, `read_config_file`, `write_config_file`)
  * `src/api/data.rs` — response models (`ApiResponse`, `ErrorResponse`, `Factions`,
    `AgentData`, `RegistrationData`, `LocationData`, ship/contract records) together with
    the serde-derived (de)serialization behaviour relevant to the claims
  * `src/api/client.rs` — the API client (`ApiClient`, its `HttpClient` impl, and the
    `TraderApis` operations `register_new_agent`, `get_agent_data`,
    `get_waypoint_location_data`)

Modelling conventions:
  * JSON documents are modelled as a `Json` value tree. The third-party `serde_json`
    text layer (printing/parsing of JSON text) is treated as value-faithful, so file
    contents and HTTP bodies are passed around as `Json` values (or as an explicit
    `garbage` case for text that is not valid JSON). Numbers are modelled as integers;
    no number in any claim is fractional.
  * The HTTP transport (`reqwest`) is modelled as an explicit function from the request
    the client builds to the response the server returns; network failure is an
    explicit `Except.error`.
  * Rust machine integers are modelled as `Int`/`Nat` with explicit range checks where
    the serde decoder enforces them (`i32`, `i64`).
  * Rust `panic!`/`.expect` aborts are modelled as an explicit `CallResult.panicked`
    outcome, and out-of-range slice indexing as `Option.none`.
-/

/-- A JSON value, as produced by `serde_json` when parsing a response body or a config
file. Object fields are kept as an ordered association list. -/
inductive Json where
  | null : Json
  | bool (b : Bool) : Json
  | num (n : Int) : Json
  | str (s : String) : Json
  | arr (elems : List Json) : Json
  | obj (fields : List (String × Json)) : Json

/-! ## Config store (`src/utils.rs`) -/

/-- The shape of the data contained in the config file (`utils.rs`, `ConfigData`). -/
structure ConfigData where
  token : String
deriving DecidableEq

/-- The single error kind of the config store (`utils.rs`, `ConfigError`). -/
inductive ConfigError where
  | FileWrite : ConfigError
deriving DecidableEq

/-- Serde serialization of `ConfigData` (derived `Serialize`, no rename attribute):
a JSON object with the single field `token`. -/
def ConfigData.encode (c : ConfigData) : Json :=
  Json.obj [("token", Json.str c.token)]

/-- Field loop of the serde-derived `Deserialize` for `ConfigData`: walk the object
fields in order, remembering whether `token` has been seen. A duplicate `token`
field or a non-string value is an error; unknown fields are ignored (serde default). -/
def ConfigData.decodeTokenField : List (String × Json) → Option String → Option String
  | [], acc => acc
  | (k, v) :: rest, acc =>
    if k = "token" then
      match acc, v with
      | none, Json.str s => ConfigData.decodeTokenField rest (some s)
      | _, _ => none
    else ConfigData.decodeTokenField rest acc

/-- Serde deserialization of `ConfigData` (derived `Deserialize`): requires a JSON
object providing the `token` field as a string. -/
def ConfigData.decode : Json → Option ConfigData
  | Json.obj fields => (ConfigData.decodeTokenField fields none).map (fun t => ⟨t⟩)
  | _ => none

/-- State of the config file on disk, as seen by `fs::read_to_string` followed by
`serde_json::from_str`: the file may be absent/unreadable, hold text that is not
valid JSON, or hold text that parses as the JSON value `j`. -/
inductive FileContents where
  | unreadable : FileContents
  | garbage : FileContents
  | json (j : Json) : FileContents

/-- Embedding of `read_config_file` (`utils.rs`): every failure — unreadable file,
invalid JSON, or a JSON value that does not decode as `ConfigData` — is converted
to `none` by the two `.ok()?`/`.ok()` steps. -/
def read_config_file : FileContents → Option ConfigData
  | FileContents.unreadable => none
  | FileContents.garbage => none
  | FileContents.json j => ConfigData.decode j

/-- Embedding of `write_config_file` (`utils.rs`): serializes the given `ConfigData`
and overwrites the file with it. The returned value is the new file state; the
I/O-failure case (`ConfigError::FileWrite`) is not reachable in this state model. -/
def write_config_file (config_data : ConfigData) : FileContents :=
  FileContents.json (ConfigData.encode config_data)

/-! ## Factions (`src/api/data.rs`) -/

/-- Names of the various factions currently in the game (`data.rs`, `Factions`). -/
inductive Factions where
  | Cosmic | Void | Galactic | Quantum | Dominion | Astro | Corsairs
deriving DecidableEq

/-- The `Display` impl of `Factions` writes the derived `Debug` form, which for a
unit enum variant is the variant name verbatim. -/
def Factions.display : Factions → String
  | .Cosmic => "Cosmic"
  | .Void => "Void"
  | .Galactic => "Galactic"
  | .Quantum => "Quantum"
  | .Dominion => "Dominion"
  | .Astro => "Astro"
  | .Corsairs => "Corsairs"

/-- Serde wire identifier of a `Factions` variant: the derive carries
`rename_all = "UPPERCASE"`, so each variant (de)serializes as its upper-cased name. -/
def Factions.wire : Factions → String
  | .Cosmic => "COSMIC"
  | .Void => "VOID"
  | .Galactic => "GALACTIC"
  | .Quantum => "QUANTUM"
  | .Dominion => "DOMINION"
  | .Astro => "ASTRO"
  | .Corsairs => "CORSAIRS"

/-- Serde deserialization of `Factions` from a JSON string: matches the renamed
(UPPERCASE) variant identifiers, rejecting anything else. -/
def Factions.fromWire (s : String) : Option Factions :=
  if s = "COSMIC" then some .Cosmic
  else if s = "VOID" then some .Void
  else if s = "GALACTIC" then some .Galactic
  else if s = "QUANTUM" then some .Quantum
  else if s = "DOMINION" then some .Dominion
  else if s = "ASTRO" then some .Astro
  else if s = "CORSAIRS" then some .Corsairs
  else none

/-- Rust `str::to_uppercase` restricted to the ASCII alphabet, which is the only
input it receives here (faction display names). -/
def to_uppercase (s : String) : String := String.mk (s.data.map Char.toUpper)

/-! ## Response models (`src/api/data.rs`) -/

/-- General characteristics, currently used for factions and locations
(`data.rs`, `TraitData`). -/
structure TraitData where
  symbol : String
  name : String
  description : String

/-- Integer coordinates of a location (`data.rs`, `Coords`; `i32` fields). -/
structure Coords where
  x : Int
  y : Int

/-- Location/waypoint metadata (`data.rs`, `LocationData`). The open-ended maps
(`chart`, `faction`, orbital entries) are `HashMap<String, String>` in the source,
modelled as association lists. -/
structure LocationData where
  system_symbol : String
  symbol : String
  type : String
  coords : Coords
  orbitals : Option (List (List (String × String)))
  traits : Option (List TraitData)
  chart : Option (List (String × String))
  faction : Option (List (String × String))

/-- One leg pair of a ship route (`data.rs`, `Route`). -/
structure Route where
  departure : LocationData
  destination : LocationData

/-- Ship navigation info (`data.rs`, `NavInfo`). -/
structure NavInfo where
  system_symbol : String
  waypoint_symbol : String
  route : Route
  status : String
  flight_mode : String

/-- Ship crew info (`data.rs`, `CrewInfo`; unsigned integer fields). -/
structure CrewInfo where
  current : Nat
  capacity : Nat
  required : Nat
  rotation : String
  morale : Nat
  wages : Nat

/-- Fuel consumption record (`data.rs`, `ConsumedFuel`). -/
structure ConsumedFuel where
  amount : Nat
  timestamp : String

/-- Ship fuel info (`data.rs`, `FuelInfo`). -/
structure FuelInfo where
  current : Nat
  capacity : Nat
  consumed : ConsumedFuel

/-- Crew/power/slot requirements of a ship component (`data.rs`,
`ComponentRequirements`). -/
structure ComponentRequirements where
  crew : Option Nat
  power : Option Nat
  slots : Option Nat

/-- Common shape of ship components (`data.rs`, `ComponentInfo`). -/
structure ComponentInfo where
  symbol : String
  name : String
  description : String
  condition : Option Nat
  requirements : ComponentRequirements

/-- Ship frame (`data.rs`, `FrameInfo`; flattens `ComponentInfo`). -/
structure FrameInfo where
  component_info : ComponentInfo
  module_slots : Nat
  mounting_points : Nat
  fuel_capacity : Nat

/-- Ship reactor (`data.rs`, `ReactorInfo`). -/
structure ReactorInfo where
  component_info : ComponentInfo
  power_output : Nat

/-- Ship engine (`data.rs`, `EngineInfo`). -/
structure EngineInfo where
  component_info : ComponentInfo
  speed : Nat

/-- Ship module (`data.rs`, `ModuleInfo`). -/
structure ModuleInfo where
  component_info : ComponentInfo
  capacity : Option Nat

/-- Ship mount (`data.rs`, `MountInfo`). -/
structure MountInfo where
  component_info : ComponentInfo
  strength : Nat
  deposits : Option (List String)

/-- To what agent a given ship is registered (`data.rs`, `ShipRegistration`). -/
structure ShipRegistration where
  name : String
  faction_symbol : Factions
  role : String

/-- One cargo inventory item (`data.rs`, `CargoItem`). -/
structure CargoItem where
  symbol : String
  name : String
  description : String
  units : Nat

/-- Ship cargo info (`data.rs`, `CargoInfo`). -/
structure CargoInfo where
  capacity : Nat
  units : Nat
  inventory : List CargoItem

/-- Metadata associated with a given ship (`data.rs`, `ShipData`). -/
structure ShipData where
  symbol : String
  nav : NavInfo
  crew : CrewInfo
  fuel : FuelInfo
  frame : FrameInfo
  reactor : ReactorInfo
  engine : EngineInfo
  modules : List ModuleInfo
  mounts : List MountInfo
  registration : ShipRegistration
  cargo : CargoInfo

/-- Basic information about a given player agent (`data.rs`, `AgentData`;
`credits` is `i64`). -/
structure AgentData where
  account_id : String
  symbol : String
  headquarters : String
  credits : Int

/-- Contract payment split (`data.rs`, `PaymentInfo`). -/
structure PaymentInfo where
  on_accepted : Int
  on_fulfilled : Int

/-- Contract delivery requirement (`data.rs`, `DeliveryInfo`). -/
structure DeliveryInfo where
  trade_symbol : String
  destination_symbol : String
  units_required : Int
  units_fulfilled : Int

/-- Contract terms (`data.rs`, `ContractTerms`). -/
structure ContractTerms where
  deadline : String
  payment : PaymentInfo
  deliver : List DeliveryInfo

/-- Information about contracts AKA missions (`data.rs`, `ContractData`). -/
structure ContractData where
  id : String
  faction_symbol : String
  type : String
  terms : ContractTerms
  accepted : Bool
  fulfilled : Bool
  expiration : String

/-- Metadata pertaining to each faction (`data.rs`, `FactionData`). -/
structure FactionData where
  symbol : Factions
  name : String
  description : String
  headquarters : String
  traits : List TraitData

/-- Data that is returned when a new agent is created in the game
(`data.rs`, `RegistrationData`). -/
structure RegistrationData where
  token : String
  agent : AgentData
  contract : ContractData
  faction : FactionData
  ship : ShipData

/-- Shape of errors that come from the SpaceTraders API (`data.rs`,
`ErrorResponse`): message, `i32` code, and an optional open-ended map of
auxiliary data. -/
structure ErrorResponse where
  message : String
  code : Int
  data : Option (List (String × Json))

/-- The success/error envelope of every API response (`data.rs`, `ApiResponse`).
The serde derive has no `untagged`/`tag` attribute, so it uses the default
externally tagged representation with `rename_all = "lowercase"` variant keys. -/
inductive ApiResponse (T : Type) where
  | Data (d : T) : ApiResponse T
  | Error (e : ErrorResponse) : ApiResponse T

/-! ## Serde decoding of the envelope and payloads -/

/-- Decode of the `data` auxiliary field of `ErrorResponse`
(`Option<HashMap<String, serde_json::Value>>`): JSON `null` gives `none`, a JSON
object gives the map, anything else is an error. -/
def decodeAuxMap : Json → Option (Option (List (String × Json)))
  | Json.null => some none
  | Json.obj fields => some (some fields)
  | _ => none

/-- Field loop of the serde-derived `Deserialize` for `ErrorResponse`. The three
accumulators track fields already seen (`data` tracks explicit presence so that a
duplicate is an error); unknown fields are ignored (serde default). -/
def ErrorResponse.decodeFields :
    List (String × Json) → Option String → Option Int →
    Option (Option (List (String × Json))) → Option ErrorResponse
  | [], msg, code, dat =>
    match msg, code with
    | some m, some c => some ⟨m, c, dat.getD none⟩
    | _, _ => none
  | (k, v) :: rest, msg, code, dat =>
    if k = "message" then
      match msg, v with
      | none, Json.str s => ErrorResponse.decodeFields rest (some s) code dat
      | _, _ => none
    else if k = "code" then
      match code, v with
      | none, Json.num n =>
        if -(2 ^ 31) ≤ n ∧ n < 2 ^ 31 then ErrorResponse.decodeFields rest msg (some n) dat
        else none
      | _, _ => none
    else if k = "data" then
      match dat, decodeAuxMap v with
      | none, some d => ErrorResponse.decodeFields rest msg code (some d)
      | _, _ => none
    else ErrorResponse.decodeFields rest msg code dat

/-- Serde deserialization of `ErrorResponse`: a JSON object with a string
`message`, an in-range `i32` `code`, and an optional `data` map. -/
def ErrorResponse.decode : Json → Option ErrorResponse
  | Json.obj fields => ErrorResponse.decodeFields fields none none none
  | _ => none

/-- Field loop of the serde-derived `Deserialize` for `AgentData`
(`rename_all = "camelCase"`, so the wire keys are `accountId`, `symbol`,
`headquarters`, `credits`; `credits` must fit in `i64`). -/
def AgentData.decodeFields :
    List (String × Json) → Option String → Option String → Option String →
    Option Int → Option AgentData
  | [], acc, sym, hq, cr =>
    match acc, sym, hq, cr with
    | some a, some s, some h, some c => some ⟨a, s, h, c⟩
    | _, _, _, _ => none
  | (k, v) :: rest, acc, sym, hq, cr =>
    if k = "accountId" then
      match acc, v with
      | none, Json.str s => AgentData.decodeFields rest (some s) sym hq cr
      | _, _ => none
    else if k = "symbol" then
      match sym, v with
      | none, Json.str s => AgentData.decodeFields rest acc (some s) hq cr
      | _, _ => none
    else if k = "headquarters" then
      match hq, v with
      | none, Json.str s => AgentData.decodeFields rest acc sym (some s) cr
      | _, _ => none
    else if k = "credits" then
      match cr, v with
      | none, Json.num n =>
        if -(2 ^ 63) ≤ n ∧ n < 2 ^ 63 then AgentData.decodeFields rest acc sym hq (some n)
        else none
      | _, _ => none
    else AgentData.decodeFields rest acc sym hq cr

/-- Serde deserialization of `AgentData`. -/
def AgentData.decode : Json → Option AgentData
  | Json.obj fields => AgentData.decodeFields fields none none none none
  | _ => none

/-- Serde deserialization of the externally tagged `ApiResponse<T>` envelope,
generic over the payload deserializer `decT` (standing for `T: Deserialize`):
the body must be an object with exactly one key, `data` selecting the `Data`
variant (its value decoded by `decT`) or `error` selecting the `Error` variant
(its value decoded as `ErrorResponse`); any other body is a decode error. -/
def ApiResponse.decode {T : Type} (decT : Json → Option T) : Json → Option (ApiResponse T)
  | Json.obj [(k, v)] =>
    if k = "data" then (decT v).map ApiResponse.Data
    else if k = "error" then (ErrorResponse.decode v).map ApiResponse.Error
    else none
  | _ => none

/-! ## Rust `Debug` rendering of the registration request body

`register_new_agent` builds its request body as
`format!("{:?}", HashMap::from([("symbol", ...), ("faction", ...)]))`, i.e. the
derived `Debug` output of a two-entry string map. The functions below model that
formatting. `escDebugChar` follows `char::escape_debug` exactly on the ASCII
range; for codepoints above 0x7f Rust consults Unicode printability tables and
prints printable characters verbatim, while this model conservatively emits the
`\u{...}` escape — no theorem below evaluates it outside the ASCII range. -/

/-- Escape of one character inside Rust `Debug` output of a string
(`char::escape_debug` with double quotes escaped, single quotes not). -/
def escDebugChar (c : Char) : List Char :=
  if c = '\x00' then ['\\', '0']
  else if c = '\t' then ['\\', 't']
  else if c = '\r' then ['\\', 'r']
  else if c = '\n' then ['\\', 'n']
  else if c = '\\' then ['\\', '\\']
  else if c = '"' then ['\\', '"']
  else if 0x20 ≤ c.toNat ∧ c.toNat < 0x7f then [c]
  else '\\' :: 'u' :: '\x7b' :: (Nat.toDigits 16 c.toNat ++ ['\x7d'])

/-- The `Debug`-escaped characters of a string. -/
def escDebug (s : String) : List Char := (s.data.map escDebugChar).flatten

/-- Rust `Debug` rendering of a string: its characters escaped and wrapped in
double quotes. -/
def rustDebugStr (s : String) : List Char := '"' :: escDebug s ++ ['"']

/-- One `key: value` entry of Rust `Debug` map output. -/
def rustDebugEntry (kv : String × String) : List Char :=
  rustDebugStr kv.1 ++ ':' :: ' ' :: rustDebugStr kv.2

/-- Comma-space separated concatenation, as used between `Debug` map entries. -/
def joinCommaSep : List (List Char) → List Char
  | [] => []
  | [x] => x
  | x :: xs => x ++ ',' :: ' ' :: joinCommaSep xs

/-- Rust `Debug` rendering of a string-to-string map with the given entry order:
`\x7bk1: v1, k2: v2\x7d` with every key and value `Debug`-escaped and quoted. -/
def rustDebugMap (entries : List (String × String)) : String :=
  String.mk ('\x7b' :: joinCommaSep (entries.map rustDebugEntry) ++ ['\x7d'])

/-! ## The API client (`src/api/client.rs`) -/

/-- API route root (`client.rs`, `ROOT_URL`). -/
def ROOT_URL : String := "https://api.spacetraders.io/v2"

/-- HTTP method of a request built by the client. -/
inductive Method where
  | GET | POST
deriving DecidableEq

/-- An HTTP request as assembled by the `HttpClient` impl: method, URL, the
headers explicitly set by the client, and the body for POST. -/
structure HttpRequest where
  method : Method
  url : String
  headers : List (String × String)
  body : Option String

/-- Client interface for the SpaceTraders API (`client.rs`, `ApiClient`). The
`reqwest` connection-pool handle carries no observable state and is omitted;
the bearer token is the client state. -/
structure ApiClient where
  token : String

/-- The `HttpClient::get` impl for `ApiClient`: a GET with `bearer_auth` (the
`Authorization: Bearer <token>` header) and `Content-Type: application/json`. -/
def ApiClient.httpGet (self : ApiClient) (url : String) : HttpRequest :=
  { method := Method.GET
    url := url
    headers := [("Authorization", "Bearer " ++ self.token),
                ("Content-Type", "application/json")]
    body := none }

/-- The `HttpClient::post` impl for `ApiClient`: a POST with
`Content-Type: application/json` and the given body. No bearer header is set. -/
def ApiClient.httpPost (_self : ApiClient) (request_body : String) (url : String) : HttpRequest :=
  { method := Method.POST
    url := url
    headers := [("Content-Type", "application/json")]
    body := some request_body }

/-- The two entries of the registration request map, in the order the `HashMap`
iterator happens to yield them (`order` selects which of the two possible
iteration orders occurred; `HashMap` iteration order is unspecified). The
faction value is `faction_name.to_string().to_uppercase()`. -/
def registrationBodyEntries (agent_name : String) (faction_name : Factions)
    (order : Bool) : List (String × String) :=
  if order then
    [("symbol", agent_name), ("faction", to_uppercase faction_name.display)]
  else
    [("faction", to_uppercase faction_name.display), ("symbol", agent_name)]

/-- The registration request body: `Debug` output of the two-entry map. -/
def registrationRequestBody (agent_name : String) (faction_name : Factions)
    (order : Bool) : String :=
  rustDebugMap (registrationBodyEntries agent_name faction_name order)

/-- The full POST request issued by `register_new_agent`. -/
def registrationRequest (self : ApiClient) (agent_name : String)
    (faction_name : Factions) (order : Bool) : HttpRequest :=
  self.httpPost (registrationRequestBody agent_name faction_name order)
    (ROOT_URL ++ "/register")

/-- The GET request issued by `get_agent_data`. -/
def agentDataRequest (self : ApiClient) : HttpRequest :=
  self.httpGet (ROOT_URL ++ "/my/agent")

/-- Embedding of Rust `str::split` on the one-character pattern `"-"`: the list
of (possibly empty) segments between dashes; an input without dashes yields one
segment, and the result is never empty. -/
def splitDash : List Char → List (List Char)
  | [] => [[]]
  | c :: rest =>
    if c = '-' then [] :: splitDash rest
    else
      match splitDash rest with
      | h :: t => (c :: h) :: t
      | [] => [[c]]

/-- The system-derivation expression inside `get_waypoint_location_data`:
`waypoint.split("-").map(String::from).collect::<Vec<String>>()[0..=1].join("-")`.
The slice `[0..=1]` panics when the split yields fewer than two segments
(modelled as `none`); otherwise the first two segments are joined with a dash. -/
def waypointSystem (waypoint : String) : Option String :=
  match (splitDash waypoint.data).map String.mk with
  | a :: b :: _ => some (a ++ "-" ++ b)
  | _ => none

/-- The GET request issued by `get_waypoint_location_data`, when the system
derivation does not panic. -/
def waypointRequest (self : ApiClient) (waypoint : String) : Option HttpRequest :=
  (waypointSystem waypoint).map fun system =>
    self.httpGet (ROOT_URL ++ "/systems/" ++ system ++ "/waypoints/" ++ waypoint)

/-! ## Operations (`TraderApis for ApiClient`) -/

/-- An opaque transport-level failure (`reqwest::Error`). -/
structure NetError where
  tag : Nat
deriving DecidableEq

/-- The unified client error type (`client.rs`, `ApiError`). -/
inductive ApiError where
  | Network (e : NetError) : ApiError
  | MissingToken : ApiError
  | BadRequest (e : ErrorResponse) : ApiError

/-- Outcome of one client operation: a value, a returned `ApiError`, or a
process abort from an `.expect` call (decode failure). -/
inductive CallResult (A : Type) where
  | ok (a : A) : CallResult A
  | err (e : ApiError) : CallResult A
  | panicked (msg : String) : CallResult A

/-- The HTTP transport: what the server answers to a given request. A
`reqwest::Error` on send is the `Except.error` case; otherwise the response body
is handed to `serde_json`, with `garbage` standing for a body that is not valid
JSON (this makes the `.json()::<...>` step fail, hence the `.expect` abort). -/
def Transport : Type := HttpRequest → Except NetError FileContents

/-- Initializes an `ApiClient` based on existing config data
(`client.rs`, `ApiClient::init`). -/
def ApiClient.init (file : FileContents) : Except ApiError ApiClient :=
  match read_config_file file with
  | none => Except.error ApiError.MissingToken
  | some cfg => Except.ok { token := cfg.token }

/-- Embedding of `register_new_agent` (`client.rs`). `decReg` is the
serde-derived `RegistrationData: Deserialize`, left as a parameter exactly as
the Rust code is generic in `ApiResponse<T>`; `transport` answers the POST the
function builds; `store` is the config-file state, returned updated. On the
`Data` branch the new token is persisted before the payload is returned; on the
`Error` branch the server payload is surfaced as `BadRequest` and the store is
untouched. -/
def ApiClient.register_new_agent (decReg : Json → Option RegistrationData)
    (transport : Transport) (order : Bool) (self : ApiClient)
    (agent_name : String) (faction_name : Factions) (store : FileContents) :
    CallResult RegistrationData × FileContents :=
  match transport (registrationRequest self agent_name faction_name order) with
  | Except.error e => (CallResult.err (ApiError.Network e), store)
  | Except.ok FileContents.unreadable =>
    (CallResult.panicked "Error parsing API JSON response", store)
  | Except.ok FileContents.garbage =>
    (CallResult.panicked "Error parsing API JSON response", store)
  | Except.ok (FileContents.json body) =>
    match ApiResponse.decode decReg body with
    | none => (CallResult.panicked "Error parsing API JSON response", store)
    | some (ApiResponse.Data registration_data) =>
      (CallResult.ok registration_data, write_config_file ⟨registration_data.token⟩)
    | some (ApiResponse.Error api_error) =>
      (CallResult.err (ApiError.BadRequest api_error), store)

/-- Embedding of `get_agent_data` (`client.rs`), with the serde-derived
`AgentData` deserializer applied to the envelope. -/
def ApiClient.get_agent_data (transport : Transport) (self : ApiClient) :
    CallResult AgentData :=
  match transport (agentDataRequest self) with
  | Except.error e => CallResult.err (ApiError.Network e)
  | Except.ok FileContents.unreadable => CallResult.panicked "Error parsing API response JSON!"
  | Except.ok FileContents.garbage => CallResult.panicked "Error parsing API response JSON!"
  | Except.ok (FileContents.json body) =>
    match ApiResponse.decode AgentData.decode body with
    | none => CallResult.panicked "Error parsing API response JSON!"
    | some (ApiResponse.Data agent_data) => CallResult.ok agent_data
    | some (ApiResponse.Error api_error) => CallResult.err (ApiError.BadRequest api_error)

/-- Embedding of `get_waypoint_location_data` (`client.rs`). `decLoc` stands for
the serde-derived `LocationData: Deserialize`. The system derivation runs first;
with fewer than two dash-delimited segments the slice `[0..=1]` is out of range
and the function aborts (`index out of range`) before any request is sent. -/
def ApiClient.get_waypoint_location_data (decLoc : Json → Option LocationData)
    (transport : Transport) (self : ApiClient) (waypoint : String) :
    CallResult LocationData :=
  match waypointRequest self waypoint with
  | none => CallResult.panicked "index out of range"
  | some req =>
    match transport req with
    | Except.error e => CallResult.err (ApiError.Network e)
    | Except.ok FileContents.unreadable => CallResult.panicked "Error parsing API response JSON!"
    | Except.ok FileContents.garbage => CallResult.panicked "Error parsing API response JSON!"
    | Except.ok (FileContents.json body) =>
      match ApiResponse.decode decLoc body with
      | none => CallResult.panicked "Error parsing API response JSON!"
      | some (ApiResponse.Data location_data) => CallResult.ok location_data
      | some (ApiResponse.Error api_error) => CallResult.err (ApiError.BadRequest api_error)

/-- Embedding of `ApiClient::new` (`client.rs`): build a client whose token is
`String::default()` (the empty string), immediately run `register_new_agent` on
it, and on success install the returned token into the client. Any registration
failure is returned unchanged. -/
def ApiClient.new (decReg : Json → Option RegistrationData) (transport : Transport)
    (order : Bool) (agent_name : String) (faction : Factions) (store : FileContents) :
    CallResult ApiClient × FileContents :=
  match ApiClient.register_new_agent decReg transport order { token := "" }
      agent_name faction store with
  | (CallResult.ok registration_data, store2) =>
    (CallResult.ok { token := registration_data.token }, store2)
  | (CallResult.err e, store2) => (CallResult.err e, store2)
  | (CallResult.panicked m, store2) => (CallResult.panicked m, store2)

/-! ## A JSON text parser for flat string-valued objects

Used to state what the registration request body — a Rust `Debug`-formatted
map — does or does not mean as JSON text. The parser follows the RFC 8259
grammar restricted to objects whose values are strings, which is the only shape
the body under scrutiny can take. Limitation: a `\u` escape denoting a UTF-16
surrogate half is rejected rather than paired; no string these theorems touch
contains a `\u` escape at all. -/

/-- Value of one hexadecimal digit. -/
def hexVal (c : Char) : Option Nat :=
  if '0' ≤ c ∧ c ≤ '9' then some (c.toNat - '0'.toNat)
  else if 'a' ≤ c ∧ c ≤ 'f' then some (c.toNat - 'a'.toNat + 10)
  else if 'A' ≤ c ∧ c ≤ 'F' then some (c.toNat - 'A'.toNat + 10)
  else none

/-- The character denoted by a single-letter JSON string escape. -/
def jsonUnescape (e : Char) : Option Char :=
  if e = '"' then some '"'
  else if e = '\\' then some '\\'
  else if e = '/' then some '/'
  else if e = 'n' then some '\n'
  else if e = 't' then some '\t'
  else if e = 'r' then some '\r'
  else if e = 'b' then some '\x08'
  else if e = 'f' then some '\x0c'
  else none

/-- Parse the remainder of a JSON string literal (everything after the opening
quote): returns the denoted characters and the input after the closing quote.
Raw control characters are forbidden, escapes are decoded per RFC 8259. -/
def parseStrChars : List Char → Option (List Char × List Char)
  | [] => none
  | c :: rest =>
    if c = '"' then some ([], rest)
    else if c = '\\' then
      match rest with
      | [] => none
      | e :: rest2 =>
        if e = 'u' then
          match rest2 with
          | h1 :: h2 :: h3 :: h4 :: rest3 =>
            match hexVal h1, hexVal h2, hexVal h3, hexVal h4 with
            | some a, some b, some x, some d =>
              let n := ((a * 16 + b) * 16 + x) * 16 + d
              if n < 0xd800 then
                match parseStrChars rest3 with
                | some (cs, r) => some (Char.ofNat n :: cs, r)
                | none => none
              else none
            | _, _, _, _ => none
          | _ => none
        else
          match jsonUnescape e with
          | some ec =>
            match parseStrChars rest2 with
            | some (cs, r) => some (ec :: cs, r)
            | none => none
          | none => none
    else if c.toNat < 0x20 then none
    else
      match parseStrChars rest with
      | some (cs, r) => some (c :: cs, r)
      | none => none

/-- JSON insignificant whitespace. -/
def isJsonWs (c : Char) : Bool :=
  c = ' ' || c = '\t' || c = '\n' || c = '\r'

/-- Drop leading JSON whitespace. -/
def skipWs : List Char → List Char
  | [] => []
  | c :: rest => if isJsonWs c then skipWs rest else c :: rest

/-- Parse one `"key" : "value"` member of a flat string-valued JSON object. -/
def parseMember (l : List Char) : Option ((String × String) × List Char) :=
  match skipWs l with
  | '"' :: r1 =>
    match parseStrChars r1 with
    | some (k, r2) =>
      match skipWs r2 with
      | ':' :: r3 =>
        match skipWs r3 with
        | '"' :: r4 =>
          match parseStrChars r4 with
          | some (v, r5) => some ((String.mk k, String.mk v), r5)
          | none => none
        | _ => none
      | _ => none
    | none => none
  | _ => none

/-- Parse the member list of a non-empty flat string-valued JSON object,
consuming the closing brace; `fuel` bounds the number of members. -/
def parseMembers : Nat → List Char → Option (List (String × String) × List Char)
  | 0, _ => none
  | fuel + 1, l =>
    match parseMember l with
    | none => none
    | some (p, rest) =>
      match skipWs rest with
      | ',' :: r2 =>
        match parseMembers fuel r2 with
        | some (ps, r) => some (p :: ps, r)
        | none => none
      | '\x7d' :: r2 => some ([p], r2)
      | _ => none

/-- Parse a complete JSON text consisting of one object whose values are all
strings; returns its members in textual order. -/
def parseFlatStrObj (s : String) : Option (List (String × String)) :=
  match skipWs s.data with
  | '\x7b' :: r =>
    match skipWs r with
    | '\x7d' :: r2 => if skipWs r2 = [] then some [] else none
    | _ =>
      match parseMembers s.data.length r with
      | some (ps, r2) => if skipWs r2 = [] then some ps else none
      | none => none
  | _ => none

/-- Characters on which the model of `char::escape_debug` is exact and whose
escape (or verbatim rendering) means the same thing to a JSON string decoder:
tab, newline, carriage return, and the printable ASCII range. -/
def safeDebugChar (c : Char) : Prop :=
  c = '\t' ∨ c = '\n' ∨ c = '\r' ∨ (0x20 ≤ c.toNat ∧ c.toNat < 0x7f)

instance (c : Char) : Decidable (safeDebugChar c) := by
  unfold safeDebugChar
  infer_instance

/-! ## Sample response values used to instantiate general theorems -/

/-- A concrete location record. -/
def sampleLocation : LocationData :=
  ⟨"X1-DF55", "X1-DF55-A1", "PLANET", ⟨0, 0⟩, none, none, none, none⟩

/-- A concrete ship component record. -/
def sampleComponent : ComponentInfo :=
  ⟨"FRAME_DRONE", "Frame", "A frame", none, ⟨none, none, none⟩⟩

/-- A concrete ship record. -/
def sampleShip : ShipData :=
  ⟨"TEST_AGENT-1",
    ⟨"X1-DF55", "X1-DF55-A1", ⟨sampleLocation, sampleLocation⟩, "DOCKED", "CRUISE"⟩,
    ⟨0, 0, 0, "STRICT", 100, 0⟩,
    ⟨100, 100, ⟨0, "2023-01-01T00:00:00Z"⟩⟩,
    ⟨sampleComponent, 0, 0, 100⟩,
    ⟨sampleComponent, 10⟩,
    ⟨sampleComponent, 2⟩,
    [], [],
    ⟨"TEST_AGENT", Factions.Astro, "COMMAND"⟩,
    ⟨0, 0, []⟩⟩

/-- A concrete agent record (the agent of the end-to-end scenario of the spec). -/
def sampleAgent : AgentData := ⟨"a1", "TESTAGENT", "X1-DF55-A1", 150000⟩

/-- A concrete contract record. -/
def sampleContract : ContractData :=
  ⟨"c1", "ASTRO", "PROCUREMENT", ⟨"2023-02-01T00:00:00Z", ⟨0, 0⟩, []⟩, false, false,
    "2023-03-01T00:00:00Z"⟩

/-- A concrete faction record. -/
def sampleFaction : FactionData := ⟨Factions.Astro, "Astro", "d", "X1-DF55-A1", []⟩

/-- A concrete registration payload. -/
def sampleRegistration : RegistrationData :=
  ⟨"NEW_TOKEN", sampleAgent, sampleContract, sampleFaction, sampleShip⟩

/-! ## Helper lemmas -/

/-- A field loop over an object with no `token` key leaves the accumulator as is. -/
theorem decodeTokenField_no_token (fields : List (String × Json)) (acc : Option String)
    (h : ∀ kv ∈ fields, kv.1 ≠ "token") :
    ConfigData.decodeTokenField fields acc = acc := by
  induction fields with
  | nil => rfl
  | cons kv rest ih =>
    have hk : kv.1 ≠ "token" := h kv (List.mem_cons_self ..)
    obtain ⟨k, v⟩ := kv
    simp only [ConfigData.decodeTokenField, if_neg hk]
    exact ih (fun kv hkv => h kv (List.mem_cons_of_mem _ hkv))

/-- The system derivation returns nothing when the split has fewer than two
segments. -/
theorem waypointSystem_short (w : String)
    (h : ((splitDash w.data).map String.mk).length < 2) :
    waypointSystem w = none := by
  unfold waypointSystem
  match hl : (splitDash w.data).map String.mk with
  | [] => rfl
  | [a] => rfl
  | a :: b :: t => rw [hl] at h; simp at h; omega

/-- The system derivation succeeds when the split has at least two segments. -/
theorem waypointSystem_long (w : String)
    (h : 2 ≤ ((splitDash w.data).map String.mk).length) :
    (waypointSystem w).isSome = true := by
  unfold waypointSystem
  match hl : (splitDash w.data).map String.mk with
  | [] => rw [hl] at h; simp at h
  | [a] => rw [hl] at h; simp at h
  | a :: b :: t => rfl

/-! ## Claims -/

/-- Claim C1: for every waypoint string with at least two dash-delimited
segments, `get_waypoint_location_data` derives the system identifier by joining
the first two dash-delimited segments with a dash, ignoring all remaining
segments; in particular `"X1-DF55-20250Z"` gives system `"X1-DF55"` and
`"AB-12-CD-34"` gives system `"AB-12"`. -/
theorem claim_C1_system_derivation :
    (∀ (w : String) (a b : String) (rest : List String),
        (splitDash w.data).map String.mk = a :: b :: rest →
        waypointSystem w = some (a ++ "-" ++ b))
    ∧ waypointSystem "X1-DF55-20250Z" = some "X1-DF55"
    ∧ waypointSystem "AB-12-CD-34" = some "AB-12" := by
  refine ⟨fun w a b rest h => ?_, by decide, by decide⟩
  unfold waypointSystem
  rw [h]

/-- Claim C1 witness: the general statement applied to the concrete waypoint
`"X1-DF55-20250Z"`. -/
theorem claim_C1_system_derivation_witness :
    waypointSystem "X1-DF55-20250Z" = some ("X1" ++ "-" ++ "DF55") :=
  claim_C1_system_derivation.1 "X1-DF55-20250Z" "X1" "DF55" ["20250Z"] (by decide)

/-- Claim C9: `get_waypoint_location_data` aborts with an index-out-of-range
panic for every waypoint whose dash split has fewer than two segments (before
any request is issued), and with at least two segments the slice indexing in
the system derivation is in bounds, so the panic branch is unreachable. -/
theorem claim_C9_waypoint_panic :
    (∀ (decLoc : Json → Option LocationData) (transport : Transport)
        (self : ApiClient) (w : String),
        ((splitDash w.data).map String.mk).length < 2 →
        ApiClient.get_waypoint_location_data decLoc transport self w =
          CallResult.panicked "index out of range")
    ∧ (∀ w : String, 2 ≤ ((splitDash w.data).map String.mk).length →
        (waypointSystem w).isSome = true) := by
  constructor
  · intro decLoc transport self w h
    unfold ApiClient.get_waypoint_location_data waypointRequest
    rw [waypointSystem_short w h]
    rfl
  · exact waypointSystem_long

/-- Claim C9 witness: the one-segment waypoint `"X1"` panics, while
`"X1-DF55-20250Z"` has an in-bounds derivation. -/
theorem claim_C9_waypoint_panic_witness :
    ApiClient.get_waypoint_location_data (fun _ => none) (fun _ => Except.error ⟨0⟩)
        ⟨"tok"⟩ "X1" = CallResult.panicked "index out of range"
    ∧ (waypointSystem "X1-DF55-20250Z").isSome = true :=
  ⟨claim_C9_waypoint_panic.1 (fun _ => none) (fun _ => Except.error ⟨0⟩) ⟨"tok"⟩ "X1"
      (by decide),
    claim_C9_waypoint_panic.2 "X1-DF55-20250Z" (by decide)⟩

/-- Claim C7: `read_default_config_file` returns `none` — never an error —
whenever the config file is absent or unreadable, contains invalid JSON, or is
missing the `token` field; and it returns `some c` exactly when the contents
decode as the expected `ConfigData` shape. -/
theorem claim_C7_read_swallows_failures :
    read_config_file FileContents.unreadable = none
    ∧ read_config_file FileContents.garbage = none
    ∧ (∀ fields : List (String × Json), (∀ kv ∈ fields, kv.1 ≠ "token") →
        read_config_file (FileContents.json (Json.obj fields)) = none)
    ∧ (∀ (j : Json) (c : ConfigData),
        read_config_file (FileContents.json j) = some c ↔ ConfigData.decode j = some c) := by
  refine ⟨rfl, rfl, fun fields h => ?_, fun j c => Iff.rfl⟩
  show ConfigData.decode (Json.obj fields) = none
  have hd : ConfigData.decode (Json.obj fields) =
      (ConfigData.decodeTokenField fields none).map (fun t => ⟨t⟩) := rfl
  rw [hd, decodeTokenField_no_token fields none h]
  rfl

/-- Claim C7 witness: a config object with only an unrelated field reads as
nothing, and a well-formed one reads back. -/
theorem claim_C7_read_swallows_failures_witness :
    read_config_file (FileContents.json (Json.obj [("user", Json.str "x")])) = none
    ∧ read_config_file (FileContents.json (Json.obj [("token", Json.str "T")])) =
        some ⟨"T"⟩ :=
  ⟨claim_C7_read_swallows_failures.2.2.1 [("user", Json.str "x")] (by decide),
    (claim_C7_read_swallows_failures.2.2.2 (Json.obj [("token", Json.str "T")]) ⟨"T"⟩).mpr rfl⟩

/-- Claim C8: writing any `ConfigData` value — any token string, including the
empty string and strings with embedded whitespace or unicode — and reading the
same path back yields `some` of an equal value. -/
theorem claim_C8_config_roundtrip (c : ConfigData) :
    read_config_file (write_config_file c) = some c := rfl

/-- Claim C10: for every `Factions` variant, upper-casing its `Display` string
yields exactly the UPPERCASE serde wire identifier, and that string
deserializes back to the same variant. -/
theorem claim_C10_faction_roundtrip (f : Factions) :
    to_uppercase f.display = f.wire
    ∧ Factions.fromWire (to_uppercase f.display) = some f := by
  cases f <;> exact ⟨by decide, by decide⟩

/-- On the `ok` branch, `register_new_agent` has persisted the returned token. -/
theorem register_ok_store (decReg : Json → Option RegistrationData) (transport : Transport)
    (order : Bool) (self : ApiClient) (agent_name : String) (faction_name : Factions)
    (store : FileContents) (d : RegistrationData) (store2 : FileContents)
    (h : ApiClient.register_new_agent decReg transport order self agent_name faction_name
        store = (CallResult.ok d, store2)) :
    store2 = write_config_file ⟨d.token⟩ := by
  unfold ApiClient.register_new_agent at h
  repeat' split at h
  all_goals rw [Prod.mk.injEq] at h
  all_goals obtain ⟨h1, h2⟩ := h
  all_goals first
    | exact CallResult.noConfusion h1
    | (injection h1 with h1; subst h1; exact h2.symm)

/-- Claim C5: every request issued by the client carries
`Content-Type: application/json`; both GET operations additionally carry
`Authorization: Bearer <token>`, while registration — the one POST — is the
stated exception that carries no bearer token. -/
theorem claim_C5_headers :
    (∀ (self : ApiClient) (agent_name : String) (faction : Factions) (order : Bool),
        ("Content-Type", "application/json") ∈
          (registrationRequest self agent_name faction order).headers)
    ∧ (∀ self : ApiClient,
        ("Content-Type", "application/json") ∈ (agentDataRequest self).headers
        ∧ ("Authorization", "Bearer " ++ self.token) ∈ (agentDataRequest self).headers)
    ∧ (∀ (self : ApiClient) (w : String) (req : HttpRequest),
        waypointRequest self w = some req →
        ("Content-Type", "application/json") ∈ req.headers
        ∧ ("Authorization", "Bearer " ++ self.token) ∈ req.headers) := by
  refine ⟨fun self agent_name faction order => ?_, fun self => ⟨?_, ?_⟩,
    fun self w req h => ?_⟩
  · simp [registrationRequest, ApiClient.httpPost]
  · simp [agentDataRequest, ApiClient.httpGet]
  · simp [agentDataRequest, ApiClient.httpGet]
  · rw [waypointRequest, Option.map_eq_some'] at h
    obtain ⟨system, _, hreq⟩ := h
    subst hreq
    constructor <;> simp [ApiClient.httpGet]

/-- Claim C5 witness: the waypoint request for `"X1-DF55-20250Z"` with a
concrete token carries both headers. -/
theorem claim_C5_headers_witness :
    ("Content-Type", "application/json") ∈
      (ApiClient.httpGet ⟨"tok"⟩
        (ROOT_URL ++ "/systems/" ++ "X1-DF55" ++ "/waypoints/" ++ "X1-DF55-20250Z")).headers
    ∧ ("Authorization", "Bearer " ++ ApiClient.token ⟨"tok"⟩) ∈
      (ApiClient.httpGet ⟨"tok"⟩
        (ROOT_URL ++ "/systems/" ++ "X1-DF55" ++ "/waypoints/" ++ "X1-DF55-20250Z")).headers :=
  claim_C5_headers.2.2 ⟨"tok"⟩ "X1-DF55-20250Z"
    (ApiClient.httpGet ⟨"tok"⟩
      (ROOT_URL ++ "/systems/" ++ "X1-DF55" ++ "/waypoints/" ++ "X1-DF55-20250Z")) rfl

/-- Claim C3: whenever the registration endpoint answers with a well-formed
business-error envelope, `register_new_agent` returns a `BadRequest` error
carrying exactly the decoded server payload, and the config store is left
unchanged — no config file is written on the error path. -/
theorem claim_C3_registration_error :
    ∀ (decReg : Json → Option RegistrationData) (transport : Transport) (order : Bool)
      (self : ApiClient) (agent_name : String) (faction : Factions)
      (store : FileContents) (ejson : Json) (e : ErrorResponse),
      transport (registrationRequest self agent_name faction order) =
        Except.ok (FileContents.json (Json.obj [("error", ejson)])) →
      ErrorResponse.decode ejson = some e →
      ApiClient.register_new_agent decReg transport order self agent_name faction store =
        (CallResult.err (ApiError.BadRequest e), store) := by
  intro decReg transport order self agent_name faction store ejson e htr hdec
  unfold ApiClient.register_new_agent
  rw [htr]
  show (match ApiResponse.decode decReg (Json.obj [("error", ejson)]) with
    | none => (CallResult.panicked "Error parsing API JSON response", store)
    | some (ApiResponse.Data registration_data) =>
      (CallResult.ok registration_data, write_config_file ⟨registration_data.token⟩)
    | some (ApiResponse.Error api_error) =>
      (CallResult.err (ApiError.BadRequest api_error), store)) =
    (CallResult.err (ApiError.BadRequest e), store)
  have hd : ApiResponse.decode decReg (Json.obj [("error", ejson)]) =
      (ErrorResponse.decode ejson).map ApiResponse.Error := rfl
  rw [hd, hdec]
  rfl

/-- Claim C3 witness: the end-to-end scenario of the spec — the server rejects
the name with `code = 4001` and message `Agent symbol already exists`; the call
returns `BadRequest` with that payload and the config store stays as it was. -/
theorem claim_C3_registration_error_witness :
    ApiClient.register_new_agent (fun _ => none)
        (fun _ => Except.ok (FileContents.json (Json.obj
          [("error", Json.obj [("message", Json.str "Agent symbol already exists"),
            ("code", Json.num 4001), ("data", Json.null)])])))
        true ⟨""⟩ "TEST_AGENT" Factions.Astro FileContents.unreadable =
      (CallResult.err (ApiError.BadRequest ⟨"Agent symbol already exists", 4001, none⟩),
        FileContents.unreadable) :=
  claim_C3_registration_error (fun _ => none) _ true ⟨""⟩ "TEST_AGENT" Factions.Astro
    FileContents.unreadable
    (Json.obj [("message", Json.str "Agent symbol already exists"),
      ("code", Json.num 4001), ("data", Json.null)])
    ⟨"Agent symbol already exists", 4001, none⟩ rfl rfl

/-- Claim C6: `ApiClient::new` starts from the empty token and immediately runs
`register_new_agent`; on success the constructed client carries exactly the
token of the returned `RegistrationData`, and that same token has been
persisted to the config store; on failure, construction fails with exactly the
error the registration call produced. -/
theorem claim_C6_new_construction :
    ∀ (decReg : Json → Option RegistrationData) (transport : Transport) (order : Bool)
      (agent_name : String) (faction : Factions) (store : FileContents),
      (∀ (d : RegistrationData) (store2 : FileContents),
          ApiClient.register_new_agent decReg transport order { token := "" }
              agent_name faction store = (CallResult.ok d, store2) →
          ApiClient.new decReg transport order agent_name faction store =
            (CallResult.ok { token := d.token }, store2)
          ∧ store2 = write_config_file ⟨d.token⟩)
      ∧ (∀ (e : ApiError) (store2 : FileContents),
          ApiClient.register_new_agent decReg transport order { token := "" }
              agent_name faction store = (CallResult.err e, store2) →
          ApiClient.new decReg transport order agent_name faction store =
            (CallResult.err e, store2)) := by
  intro decReg transport order agent_name faction store
  constructor
  · intro d store2 h
    refine ⟨?_, register_ok_store _ _ _ _ _ _ _ _ _ h⟩
    unfold ApiClient.new
    rw [h]
  · intro e store2 h
    unfold ApiClient.new
    rw [h]

/-- Claim C6 witness: on a success envelope the constructed client holds the
new token, which is persisted; on a network failure the same `Network` error
comes back from construction. -/
theorem claim_C6_new_construction_witness :
    (ApiClient.new (fun _ => some sampleRegistration)
        (fun _ => Except.ok (FileContents.json (Json.obj [("data", Json.null)])))
        true "TEST_AGENT" Factions.Astro FileContents.unreadable =
      (CallResult.ok { token := sampleRegistration.token },
        write_config_file ⟨sampleRegistration.token⟩))
    ∧ (ApiClient.new (fun _ => none) (fun _ => Except.error ⟨7⟩)
        true "TEST_AGENT" Factions.Astro FileContents.unreadable =
      (CallResult.err (ApiError.Network ⟨7⟩), FileContents.unreadable)) :=
  ⟨((claim_C6_new_construction (fun _ => some sampleRegistration)
      (fun _ => Except.ok (FileContents.json (Json.obj [("data", Json.null)])))
      true "TEST_AGENT" Factions.Astro FileContents.unreadable).1
      sampleRegistration (write_config_file ⟨sampleRegistration.token⟩) rfl).1,
    (claim_C6_new_construction (fun _ => none) (fun _ => Except.error ⟨7⟩)
      true "TEST_AGENT" Factions.Astro FileContents.unreadable).2
      (ApiError.Network ⟨7⟩) FileContents.unreadable rfl⟩

/-- Claim C2 counterexample: a JSON body matching exactly the
`(message, code, data)` error shape — without the external `error` wrapper —
does not decode to the `Error` variant at all: the envelope decode fails,
because the serde representation is externally tagged, contradicting the
claimed selection by key presence of the bare body. -/
theorem claim_C2_counterexample :
    ErrorResponse.decode (Json.obj [("message", Json.str "Agent symbol already exists"),
        ("code", Json.num 4001), ("data", Json.null)]) =
      some ⟨"Agent symbol already exists", 4001, none⟩
    ∧ ApiResponse.decode AgentData.decode
        (Json.obj [("message", Json.str "Agent symbol already exists"),
          ("code", Json.num 4001), ("data", Json.null)]) = none :=
  ⟨rfl, rfl⟩

/-- Claim C2 (amended): envelope decoding is externally tagged — a body that is
a single-key object `data: P` with `P` decoding as the success payload yields
the `Data` variant, a single-key object `error: E` with `E` matching the
`(message, code, data)` shape yields the `Error` variant, and nothing else
decodes: every decoded body is such a one-key tagged wrapper. -/
theorem claim_C2_envelope_tagged :
    ∀ {T : Type} (decT : Json → Option T),
      (∀ (p : T) (jd : Json), decT jd = some p →
          ApiResponse.decode decT (Json.obj [("data", jd)]) = some (ApiResponse.Data p))
      ∧ (∀ (e : ErrorResponse) (je : Json), ErrorResponse.decode je = some e →
          ApiResponse.decode decT (Json.obj [("error", je)]) = some (ApiResponse.Error e))
      ∧ (∀ (body : Json) (r : ApiResponse T), ApiResponse.decode decT body = some r →
          ∃ k v, body = Json.obj [(k, v)] ∧ (k = "data" ∨ k = "error")) := by
  intro T decT
  refine ⟨fun p jd h => ?_, fun e je h => ?_, fun body r h => ?_⟩
  · have hd : ApiResponse.decode decT (Json.obj [("data", jd)]) =
        (decT jd).map ApiResponse.Data := rfl
    rw [hd, h]
    rfl
  · have hd : ApiResponse.decode decT (Json.obj [("error", je)]) =
        (ErrorResponse.decode je).map ApiResponse.Error := rfl
    rw [hd, h]
    rfl
  · match body with
    | Json.null => exact absurd h (by simp [ApiResponse.decode])
    | Json.bool b => exact absurd h (by simp [ApiResponse.decode])
    | Json.num n => exact absurd h (by simp [ApiResponse.decode])
    | Json.str s => exact absurd h (by simp [ApiResponse.decode])
    | Json.arr es => exact absurd h (by simp [ApiResponse.decode])
    | Json.obj [] => exact absurd h (by simp [ApiResponse.decode])
    | Json.obj [(k, v)] =>
      refine ⟨k, v, rfl, ?_⟩
      by_cases hk : k = "data"
      · exact Or.inl hk
      · by_cases he : k = "error"
        · exact Or.inr he
        · exact absurd h (by simp [ApiResponse.decode, hk, he])
    | Json.obj (kv1 :: kv2 :: rest) => exact absurd h (by simp [ApiResponse.decode])

/-- Claim C2 witness: the amended statement applied to the agent payload of the
end-to-end scenario and to the business-error payload. -/
theorem claim_C2_envelope_tagged_witness :
    ApiResponse.decode AgentData.decode
        (Json.obj [("data", Json.obj [("accountId", Json.str "a1"),
          ("symbol", Json.str "TESTAGENT"), ("headquarters", Json.str "X1-DF55-A1"),
          ("credits", Json.num 150000)])]) = some (ApiResponse.Data sampleAgent)
    ∧ ApiResponse.decode AgentData.decode
        (Json.obj [("error", Json.obj [("message", Json.str "Agent symbol already exists"),
          ("code", Json.num 4001), ("data", Json.null)])]) =
        some (ApiResponse.Error ⟨"Agent symbol already exists", 4001, none⟩)
    ∧ (∃ k v, (Json.obj [("error", Json.obj
          [("message", Json.str "Agent symbol already exists"),
            ("code", Json.num 4001), ("data", Json.null)])]) = Json.obj [(k, v)]
        ∧ (k = "data" ∨ k = "error")) :=
  ⟨(claim_C2_envelope_tagged AgentData.decode).1 sampleAgent
      (Json.obj [("accountId", Json.str "a1"), ("symbol", Json.str "TESTAGENT"),
        ("headquarters", Json.str "X1-DF55-A1"), ("credits", Json.num 150000)]) rfl,
    (claim_C2_envelope_tagged AgentData.decode).2.1
      ⟨"Agent symbol already exists", 4001, none⟩
      (Json.obj [("message", Json.str "Agent symbol already exists"),
        ("code", Json.num 4001), ("data", Json.null)]) rfl,
    (claim_C2_envelope_tagged AgentData.decode).2.2
      (Json.obj [("error", Json.obj [("message", Json.str "Agent symbol already exists"),
        ("code", Json.num 4001), ("data", Json.null)])])
      (ApiResponse.Error ⟨"Agent symbol already exists", 4001, none⟩) rfl⟩

/-- Leading whitespace skip is inert on a double quote. -/
theorem skipWs_dq (X : List Char) : skipWs ('"' :: X) = '"' :: X := rfl

/-- Leading whitespace skip is inert on an opening brace. -/
theorem skipWs_open (X : List Char) : skipWs ('\x7b' :: X) = '\x7b' :: X := rfl

/-- Leading whitespace skip is inert on a closing brace. -/
theorem skipWs_close (X : List Char) : skipWs ('\x7d' :: X) = '\x7d' :: X := rfl

/-- Leading whitespace skip is inert on a comma. -/
theorem skipWs_comma (X : List Char) : skipWs (',' :: X) = ',' :: X := rfl

/-- Leading whitespace skip is inert on a colon. -/
theorem skipWs_colon (X : List Char) : skipWs (':' :: X) = ':' :: X := rfl

/-- Leading whitespace skip consumes a space. -/
theorem skipWs_space (X : List Char) : skipWs (' ' :: X) = skipWs X := rfl

/-- Leading whitespace skip on the empty input. -/
theorem skipWs_nil : skipWs [] = [] := rfl

/-- Round trip of the string-literal parser against the Rust `Debug` escape: on
characters where the two escaping schemes agree, parsing the escaped text up to
the closing quote recovers exactly the original characters. -/
theorem parseStrChars_escape (v rest : List Char) (h : ∀ c ∈ v, safeDebugChar c) :
    parseStrChars ((v.map escDebugChar).flatten ++ '"' :: rest) = some (v, rest) := by
  induction v with
  | nil =>
    show parseStrChars (([] : List (List Char)).flatten ++ '"' :: rest) = some ([], rest)
    rw [List.flatten_nil, List.nil_append, parseStrChars.eq_def]
    simp
  | cons c v ih =>
    have hc : safeDebugChar c := h c (List.mem_cons_self _ _)
    have hv : ∀ x ∈ v, safeDebugChar x := fun x hx => h x (List.mem_cons_of_mem _ hx)
    have ihv := ih hv
    rw [List.map_cons, List.flatten_cons, List.append_assoc]
    rcases hc with h1 | h1 | h1 | h1
    · subst h1
      rw [show escDebugChar '\t' = ['\\', 't'] from rfl]
      rw [show (['\\', 't'] : List Char) ++ ((v.map escDebugChar).flatten ++ '"' :: rest) =
        '\\' :: 't' :: ((v.map escDebugChar).flatten ++ '"' :: rest) from rfl]
      rw [parseStrChars.eq_def]
      simp [jsonUnescape, ihv]
    · subst h1
      rw [show escDebugChar '\n' = ['\\', 'n'] from rfl]
      rw [show (['\\', 'n'] : List Char) ++ ((v.map escDebugChar).flatten ++ '"' :: rest) =
        '\\' :: 'n' :: ((v.map escDebugChar).flatten ++ '"' :: rest) from rfl]
      rw [parseStrChars.eq_def]
      simp [jsonUnescape, ihv]
    · subst h1
      rw [show escDebugChar '\r' = ['\\', 'r'] from rfl]
      rw [show (['\\', 'r'] : List Char) ++ ((v.map escDebugChar).flatten ++ '"' :: rest) =
        '\\' :: 'r' :: ((v.map escDebugChar).flatten ++ '"' :: rest) from rfl]
      rw [parseStrChars.eq_def]
      simp [jsonUnescape, ihv]
    · obtain ⟨hlo, hhi⟩ := h1
      by_cases hq : c = '"'
      · subst hq
        rw [show escDebugChar '"' = ['\\', '"'] from rfl]
        rw [show (['\\', '"'] : List Char) ++ ((v.map escDebugChar).flatten ++ '"' :: rest) =
          '\\' :: '"' :: ((v.map escDebugChar).flatten ++ '"' :: rest) from rfl]
        rw [parseStrChars.eq_def]
        simp [jsonUnescape, ihv]
      · by_cases hb : c = '\\'
        · subst hb
          rw [show escDebugChar '\\' = ['\\', '\\'] from rfl]
          rw [show (['\\', '\\'] : List Char) ++ ((v.map escDebugChar).flatten ++ '"' :: rest) =
            '\\' :: '\\' :: ((v.map escDebugChar).flatten ++ '"' :: rest) from rfl]
          rw [parseStrChars.eq_def]
          simp [jsonUnescape, ihv]
        · have h0 : c ≠ '\x00' := by
            intro hh; subst hh; exact absurd hlo (by decide)
          have ht : c ≠ '\t' := by
            intro hh; subst hh; exact absurd hlo (by decide)
          have hr : c ≠ '\r' := by
            intro hh; subst hh; exact absurd hlo (by decide)
          have hn : c ≠ '\n' := by
            intro hh; subst hh; exact absurd hlo (by decide)
          have he : escDebugChar c = [c] := by
            unfold escDebugChar
            rw [if_neg h0, if_neg ht, if_neg hr, if_neg hn, if_neg hb, if_neg hq,
              if_pos ⟨hlo, hhi⟩]
          rw [he, List.singleton_append, parseStrChars.eq_def]
          have hnc : ¬ c.toNat < 0x20 := not_lt.mpr hlo
          simp [hq, hb, hnc, ihv]

/-- A leading space does not change what a member parse sees. -/
theorem parseMember_ws (l : List Char) : parseMember (' ' :: l) = parseMember l := rfl

/-- Parsing one member of the `Debug`-rendered map: a quoted escaped key,
colon-space, and a quoted escaped value, leaving the input that follows the
closing quote. -/
theorem parseMember_render (k v : String) (rest : List Char)
    (hk : ∀ c ∈ k.data, safeDebugChar c) (hv : ∀ c ∈ v.data, safeDebugChar c) :
    parseMember ('"' :: (escDebug k ++ '"' :: ':' :: ' ' :: '"' ::
      (escDebug v ++ '"' :: rest))) = some ((k, v), rest) := by
  have h1 := parseStrChars_escape k.data
    (':' :: ' ' :: '"' :: (escDebug v ++ '"' :: rest)) hk
  have h2 := parseStrChars_escape v.data rest hv
  unfold parseMember
  rw [skipWs_dq]
  show (match parseStrChars (escDebug k ++ '"' :: ':' :: ' ' :: '"' ::
      (escDebug v ++ '"' :: rest)) with
    | some (kk, r2) =>
      match skipWs r2 with
      | ':' :: r3 =>
        match skipWs r3 with
        | '"' :: r4 =>
          match parseStrChars r4 with
          | some (vv, r5) => some ((String.mk kk, String.mk vv), r5)
          | none => none
        | _ => none
      | _ => none
    | none => none) = some ((k, v), rest)
  rw [show escDebug k ++ '"' :: ':' :: ' ' :: '"' :: (escDebug v ++ '"' :: rest) =
    (k.data.map escDebugChar).flatten ++ '"' :: (':' :: ' ' :: '"' ::
      (escDebug v ++ '"' :: rest)) from rfl]
  rw [h1]
  show (match skipWs (':' :: ' ' :: '"' :: (escDebug v ++ '"' :: rest)) with
    | ':' :: r3 =>
      match skipWs r3 with
      | '"' :: r4 =>
        match parseStrChars r4 with
        | some (vv, r5) => some ((String.mk k.data, String.mk vv), r5)
        | none => none
      | _ => none
    | _ => none) = some ((k, v), rest)
  rw [skipWs_colon]
  show (match skipWs (' ' :: '"' :: (escDebug v ++ '"' :: rest)) with
    | '"' :: r4 =>
      match parseStrChars r4 with
      | some (vv, r5) => some ((String.mk k.data, String.mk vv), r5)
      | none => none
    | _ => none) = some ((k, v), rest)
  rw [skipWs_space, skipWs_dq]
  show (match parseStrChars (escDebug v ++ '"' :: rest) with
    | some (vv, r5) => some ((String.mk k.data, String.mk vv), r5)
    | none => none) = some ((k, v), rest)
  rw [show escDebug v ++ '"' :: rest =
    (v.data.map escDebugChar).flatten ++ '"' :: rest from rfl]
  rw [h2]

/-- One step of the member-list parser when a comma follows the member. -/
theorem parseMembers_cons (fuel : Nat) (l rest r2 r : List Char)
    (p : String × String) (ps : List (String × String))
    (h1 : parseMember l = some (p, rest)) (h2 : skipWs rest = ',' :: r2)
    (h3 : parseMembers fuel r2 = some (ps, r)) :
    parseMembers (fuel + 1) l = some (p :: ps, r) := by
  simp only [parseMembers, h1, h2, h3]

/-- Final step of the member-list parser when the closing brace follows. -/
theorem parseMembers_last (fuel : Nat) (l rest r2 : List Char) (p : String × String)
    (h1 : parseMember l = some (p, rest)) (h2 : skipWs rest = '\x7d' :: r2) :
    parseMembers (fuel + 1) l = some ([p], r2) := by
  simp only [parseMembers, h1, h2]

/-- Parsing the `Debug` rendering of a two-entry map recovers exactly the two
entries, provided every character of the keys and values is one on which the
`Debug` escape coincides with a JSON escape. -/
theorem parseFlatStrObj_render_two (k1 v1 k2 v2 : String)
    (hk1 : ∀ c ∈ k1.data, safeDebugChar c) (hv1 : ∀ c ∈ v1.data, safeDebugChar c)
    (hk2 : ∀ c ∈ k2.data, safeDebugChar c) (hv2 : ∀ c ∈ v2.data, safeDebugChar c) :
    parseFlatStrObj (rustDebugMap [(k1, v1), (k2, v2)]) = some [(k1, v1), (k2, v2)] := by
  have hshape : (rustDebugMap [(k1, v1), (k2, v2)]).data =
      '\x7b' :: '"' :: (escDebug k1 ++ '"' :: ':' :: ' ' :: '"' ::
        (escDebug v1 ++ '"' :: ',' :: ' ' :: '"' ::
          (escDebug k2 ++ '"' :: ':' :: ' ' :: '"' ::
            (escDebug v2 ++ '"' :: '\x7d' :: [])))) := by
    simp [rustDebugMap, joinCommaSep, rustDebugEntry, rustDebugStr, List.append_assoc]
  have hm2 : parseMember ('"' :: (escDebug k2 ++ '"' :: ':' :: ' ' :: '"' ::
      (escDebug v2 ++ '"' :: '\x7d' :: []))) = some ((k2, v2), ['\x7d']) :=
    parseMember_render k2 v2 ['\x7d'] hk2 hv2
  have hm1 : parseMember ('"' :: (escDebug k1 ++ '"' :: ':' :: ' ' :: '"' ::
      (escDebug v1 ++ '"' :: ',' :: ' ' :: '"' ::
        (escDebug k2 ++ '"' :: ':' :: ' ' :: '"' ::
          (escDebug v2 ++ '"' :: '\x7d' :: []))))) =
      some ((k1, v1), ',' :: ' ' :: '"' :: (escDebug k2 ++ '"' :: ':' :: ' ' :: '"' ::
        (escDebug v2 ++ '"' :: '\x7d' :: []))) :=
    parseMember_render k1 v1 _ hk1 hv1
  have hmembers : ∀ fuel : Nat,
      parseMembers (fuel + 1 + 1) ('"' :: (escDebug k1 ++ '"' :: ':' :: ' ' :: '"' ::
        (escDebug v1 ++ '"' :: ',' :: ' ' :: '"' ::
          (escDebug k2 ++ '"' :: ':' :: ' ' :: '"' ::
            (escDebug v2 ++ '"' :: '\x7d' :: []))))) =
      some ([(k1, v1), (k2, v2)], []) := by
    intro fuel
    refine parseMembers_cons (fuel + 1) _ _ _ _ _ _ hm1 (skipWs_comma _) ?_
    refine parseMembers_last fuel _ _ _ _ ?_ (skipWs_close _)
    rw [parseMember_ws]
    exact hm2
  simp [parseFlatStrObj, hshape, skipWs_open, skipWs_dq, skipWs_nil, hmembers]

/-- Claim C4 counterexample: for the one-character agent name `U+0000`, the
`Debug`-formatted request body escapes the character as a backslash-zero
sequence, which is not a JSON escape: the body fails to parse as a JSON object
under either map iteration order, refuting the claim for every agent name. -/
theorem claim_C4_counterexample :
    parseFlatStrObj (registrationRequestBody (String.mk ['\x00']) Factions.Cosmic true) = none
    ∧ parseFlatStrObj (registrationRequestBody (String.mk ['\x00']) Factions.Cosmic false) =
        none := ⟨rfl, rfl⟩

/-- Claim C4 (amended): for every agent name made of characters on which the
Rust `Debug` escape coincides with JSON string escaping (printable ASCII plus
tab, newline and carriage return), `register_new_agent` sends a POST whose body
is a JSON object containing the callsign under the `symbol` key and the
upper-cased faction identifier under the `faction` key, in whichever of the two
orders the `HashMap` yields. -/
theorem claim_C4_body_json (agent_name : String) (faction_name : Factions) (order : Bool)
    (h : ∀ c ∈ agent_name.data, safeDebugChar c) :
    (∀ self : ApiClient, (registrationRequest self agent_name faction_name order).body =
        some (registrationRequestBody agent_name faction_name order))
    ∧ parseFlatStrObj (registrationRequestBody agent_name faction_name order) =
        some (registrationBodyEntries agent_name faction_name order)
    ∧ ("symbol", agent_name) ∈ registrationBodyEntries agent_name faction_name order
    ∧ ("faction", to_uppercase faction_name.display) ∈
        registrationBodyEntries agent_name faction_name order := by
  have hup : ∀ c ∈ (to_uppercase faction_name.display).data, safeDebugChar c := by
    cases faction_name <;> decide
  have hsym : ∀ c ∈ ("symbol" : String).data, safeDebugChar c := by decide
  have hfac : ∀ c ∈ ("faction" : String).data, safeDebugChar c := by decide
  refine ⟨fun self => rfl, ?_, ?_, ?_⟩
  · cases order with
    | false =>
      show parseFlatStrObj (rustDebugMap
          [("faction", to_uppercase faction_name.display), ("symbol", agent_name)]) =
        some [("faction", to_uppercase faction_name.display), ("symbol", agent_name)]
      exact parseFlatStrObj_render_two _ _ _ _ hfac hup hsym h
    | true =>
      show parseFlatStrObj (rustDebugMap
          [("symbol", agent_name), ("faction", to_uppercase faction_name.display)]) =
        some [("symbol", agent_name), ("faction", to_uppercase faction_name.display)]
      exact parseFlatStrObj_render_two _ _ _ _ hsym h hfac hup
  · cases order <;> simp [registrationBodyEntries]
  · cases order <;> simp [registrationBodyEntries]

/-- Claim C4 witness: the amended statement at the concrete name `TEST_AGENT`
and faction `Astro` (the agent of the prototype entry point). -/
theorem claim_C4_body_json_witness :
    parseFlatStrObj (registrationRequestBody "TEST_AGENT" Factions.Astro true) =
      some (registrationBodyEntries "TEST_AGENT" Factions.Astro true)
    ∧ ("symbol", "TEST_AGENT") ∈ registrationBodyEntries "TEST_AGENT" Factions.Astro true :=
  ⟨(claim_C4_body_json "TEST_AGENT" Factions.Astro true (by decide)).2.1,
    (claim_C4_body_json "TEST_AGENT" Factions.Astro true (by decide)).2.2.1⟩
